import Mathlib

/-!
Shallow embedding of `src/ConfFileMng/ConfFileMng.py` (class `ConfFileMng`),
a JSON-backed configuration-dictionary manager.

Modelling conventions:

* JSON-representable values are the inductive `JValue`; a Python `dict`
  produced by `json.load` is an association list `Dict = List (String × JValue)`
  (Python dicts are insertion-ordered; a real dict never has duplicate keys,
  which theorems state as `(dictKeys d).Nodup` where it matters).
* `dict.update` (the only mutation the source uses) is `dictUpdate`,
  which overwrites the value of an existing key in place and appends
  fresh keys, exactly as CPython does.
* File I/O is modelled by the environment: the content found at the
  store's configured path is a `FileContent` argument to `ConfRead`
  (`missing` = `open` raises `FileNotFoundError`; `unreadable` = any other
  open/`json.load` failure such as a permission error or malformed JSON;
  `json v` = the file parses to the JSON document `v`).  `ConfSave`
  receives a `writeOk : Bool` saying whether the write succeeds and
  returns the `FileContent` it wrote on success.  `json.dump` followed by
  `json.load` is the identity at the `JValue` level, so serialization is
  modelled by passing the `JValue` through.
* Python control flow: a method either returns normally (`Outcome.ok`) or
  an exception escapes it (`Outcome.raised`).  The instance state
  (`_errorCode`, `_confDict`, ...) is threaded explicitly; debug tracing
  (`debugPrint`, stdout/stderr) has no effect on state and is dropped.
-/

/-- JSON-representable values (`json.load` results: null, bool, number,
string, array, object with string keys). Numbers are modelled as `Int`;
none of the source's logic inspects numeric values. -/
inductive JValue where
  | null : JValue
  | bool (b : Bool) : JValue
  | num (n : Int) : JValue
  | str (s : String) : JValue
  | arr (elems : List JValue) : JValue
  | obj (fields : List (String × JValue)) : JValue

/-- A Python dictionary with string keys, as ordered key/value pairs. -/
abbrev Dict := List (String × JValue)

/-- The keys of a dictionary, in order. -/
def dictKeys (d : Dict) : List String := d.map Prod.fst

/-- Python `d[key]` / `key in d`: the value at the first (for a real dict,
only) occurrence of `key`. -/
def dictLookup (d : Dict) (key : String) : Option JValue :=
  match d with
  | [] => none
  | (k, v) :: rest => if k = key then some v else dictLookup rest key

/-- One step of Python `dict.update`: store `value` under `key`,
overwriting in place if the key exists, appending otherwise. -/
def dictUpdate1 (d : Dict) (key : String) (value : JValue) : Dict :=
  match d with
  | [] => [(key, value)]
  | (k, v) :: rest =>
      if k = key then (k, value) :: rest
      else (k, v) :: dictUpdate1 rest key value

/-- Python `d.update(other)`: fold the pairs of `other` into `d` in order. -/
def dictUpdate (d other : Dict) : Dict :=
  other.foldl (fun acc kv => dictUpdate1 acc kv.1 kv.2) d

/-- Module-level result constant `RESULT_SUCCESS`. -/
def RESULT_SUCCESS : Nat := 0
/-- Module-level result constant `RESULT_CONF_INIT`. -/
def RESULT_CONF_INIT : Nat := 1
/-- Module-level result constant `RESULT_READ_ERROR`. -/
def RESULT_READ_ERROR : Nat := 2
/-- Module-level result constant `RESULT_WRITE_ERROR`. -/
def RESULT_WRITE_ERROR : Nat := 3
/-- Module-level result constant `RESULT_FILE_NOT_EXIST`. -/
def RESULT_FILE_NOT_EXIST : Nat := 4
/-- Module-level result constant `RESULT_KEY_NOT_FOUND`. -/
def RESULT_KEY_NOT_FOUND : Nat := 5
/-- Module-level result constant `RESULT_CONF_DICT_ERR`. -/
def RESULT_CONF_DICT_ERR : Nat := 6
/-- Module-level result constant `RESULT_UNKNOWN_ERR`. -/
def RESULT_UNKNOWN_ERR : Nat := 7

/-- The module-level `ErrorStr` table of human-readable result texts. -/
def ErrorStr : List String :=
  [ "Suceed",
    "Conf file initialize error",
    "Conf file read error",
    "Conf file write error",
    "Conf file not exist",
    "Key not found in conf dictionary",
    "Conf dictionary not exist",
    "Unknown error" ]

/-- How a call to a `ConfFileMng` method ends: a normal return, or an
exception (whether the wrapped `raise Exception(...)` or an uncaught
built-in error) propagating to the caller. -/
inductive Outcome where
  | ok : Outcome
  | raised : Outcome
deriving DecidableEq

/-- What the environment holds at the store's configured file path when a
method touches it. -/
inductive FileContent where
  | missing : FileContent
  | unreadable : FileContent
  | json (v : JValue) : FileContent

/-- The mutable instance state of a `ConfFileMng` object.  `_confDict` is
`Option Dict` because the source guards every use with
`if (self._confDict != None)`. -/
structure ConfFileMng where
  confFilePath : Option String
  name : String
  debug : Bool
  errorCode : Nat
  confDict : Option Dict

namespace ConfFileMng

/-- Python truthiness of an optional dictionary argument
(`if (userConfDict):` — `None` and the empty dict are falsy). -/
def pyTruthy : Option Dict → Bool
  | some d => !d.isEmpty
  | none => false

/-- Constructor `__init__`: sets the path, name and debug flag, resets the
error code to `RESULT_SUCCESS`, creates an empty dictionary, and merges in
`userConfDict` when it is truthy. -/
def init (confFilePath : Option String) (userConfDict : Option Dict)
    (name : String) (debug : Bool) : ConfFileMng :=
  { confFilePath := confFilePath
    name := name
    debug := debug
    errorCode := RESULT_SUCCESS
    confDict :=
      some (if pyTruthy userConfDict then dictUpdate [] (userConfDict.getD []) else []) }

/-- Method `GetErrorStr`: `ErrorStr[self._errorCode]` with the `except`
branch falling back to `ErrorStr[RESULT_UNKNOWN_ERR]` on an out-of-range
code, prefixed by the instance name. -/
def GetErrorStr (st : ConfFileMng) : String :=
  st.name ++ " : " ++ List.getD ErrorStr st.errorCode (List.getD ErrorStr RESULT_UNKNOWN_ERR "")

/-- Python `conf_read_json[0]` on an arbitrary JSON value: succeeds on a
nonempty array (first element) and on a nonempty string (first character
as a one-character string); raises `IndexError` on empty ones, `KeyError`
on an object (JSON object keys are strings, never the integer `0`), and
`TypeError` on the scalars. -/
def jsonIndex0 : JValue → Option JValue
  | JValue.arr (h :: _) => some h
  | JValue.str s =>
      match s.data with
      | c :: _ => some (JValue.str (String.mk [c]))
      | [] => none
  | _ => none

/-- Argument acceptable to `self._confDict.update(...)` in `ConfRead`: a
JSON object merges its fields.  Any other `json.load` result raises
(`TypeError`/`ValueError`) out of the unguarded update — Python would also
accept an array of two-element key/value arrays, a shape no `ConfSave`
output and no claim involves, which is modelled as a raise as well. -/
def updateArg : JValue → Option Dict
  | JValue.obj fields => some fields
  | _ => none

/-- Method `ConfRead`: set the error code to success, open and parse the
file (recording `RESULT_FILE_NOT_EXIST` or `RESULT_READ_ERROR` and
re-raising on failure), then — outside any `try` — take element `0` of the
document and `update` the dictionary with it.  Returns the new state and
whether an exception escaped. -/
def ConfRead (st : ConfFileMng) (file : FileContent) : ConfFileMng × Outcome :=
  let st0 := { st with errorCode := RESULT_SUCCESS }
  match file with
  | FileContent.missing =>
      ({ st0 with errorCode := RESULT_FILE_NOT_EXIST }, Outcome.raised)
  | FileContent.unreadable =>
      ({ st0 with errorCode := RESULT_READ_ERROR }, Outcome.raised)
  | FileContent.json v =>
      match jsonIndex0 v with
      | some elem =>
          match st0.confDict with
          | some d =>
              match updateArg elem with
              | some fields =>
                  ({ st0 with confDict := some (dictUpdate d fields) }, Outcome.ok)
              | none => (st0, Outcome.raised)
          | none =>
              ({ st0 with errorCode := RESULT_CONF_DICT_ERR }, Outcome.raised)
      | none => (st0, Outcome.raised)

/-- What `json.dump([self._confDict], ...)` writes: the dictionary (or
`null` for a `None` dictionary) wrapped in a one-element array. -/
def savedJson (confDict : Option Dict) : JValue :=
  match confDict with
  | some d => JValue.arr [JValue.obj d]
  | none => JValue.arr [JValue.null]

/-- Method `ConfSave`: set the error code to success and write the wrapped
dictionary to the file; on any write failure record `RESULT_WRITE_ERROR`
and re-raise.  `writeOk` is the environment saying whether the write
succeeds; on success the written `FileContent` is returned, on failure the
file is in an unspecified state (`none`). -/
def ConfSave (st : ConfFileMng) (writeOk : Bool) :
    ConfFileMng × Option FileContent × Outcome :=
  let st0 := { st with errorCode := RESULT_SUCCESS }
  if writeOk then
    (st0, some (FileContent.json (savedJson st0.confDict)), Outcome.ok)
  else
    ({ st0 with errorCode := RESULT_WRITE_ERROR }, none, Outcome.raised)

/-- Method `ConfSet`: set the error code to success; if the dictionary
exists, `update` it with `{ key : value }` (which cannot fail for a
string key, so the `except` branch is dead) and, when `save` is true,
call `ConfSave` and let its exception propagate; if the dictionary is
`None`, record `RESULT_CONF_DICT_ERR` and raise. -/
def ConfSet (st : ConfFileMng) (key : String) (value : JValue)
    (save : Bool) (writeOk : Bool) : ConfFileMng × Option FileContent × Outcome :=
  let st0 := { st with errorCode := RESULT_SUCCESS }
  match st0.confDict with
  | some d =>
      let st1 := { st0 with confDict := some (dictUpdate d [(key, value)]) }
      if save then ConfSave st1 writeOk else (st1, none, Outcome.ok)
  | none =>
      ({ st0 with errorCode := RESULT_CONF_DICT_ERR }, none, Outcome.raised)

/-- Method `ConfReset`: when `userConfDict` is truthy, replace the
dictionary with a fresh `dict()` updated from it and, when `save` is
true, call `ConfSave`; otherwise do nothing.  Note it never touches
`_errorCode` itself. -/
def ConfReset (st : ConfFileMng) (userConfDict : Option Dict)
    (save : Bool) (writeOk : Bool) : ConfFileMng × Option FileContent × Outcome :=
  if pyTruthy userConfDict then
    let st1 := { st with confDict := some (dictUpdate [] (userConfDict.getD [])) }
    if save then ConfSave st1 writeOk else (st1, none, Outcome.ok)
  else
    (st, none, Outcome.ok)

/-- Method `ConfGet`: set the error code to success; if the dictionary
exists, return `self._confDict[key]`, recording `RESULT_KEY_NOT_FOUND`
and raising when the key is absent; if the dictionary is `None`, record
`RESULT_CONF_DICT_ERR` and raise. -/
def ConfGet (st : ConfFileMng) (key : String) :
    ConfFileMng × Option JValue × Outcome :=
  let st0 := { st with errorCode := RESULT_SUCCESS }
  match st0.confDict with
  | some d =>
      match dictLookup d key with
      | some v => (st0, some v, Outcome.ok)
      | none =>
          ({ st0 with errorCode := RESULT_KEY_NOT_FOUND }, none, Outcome.raised)
  | none =>
      ({ st0 with errorCode := RESULT_CONF_DICT_ERR }, none, Outcome.raised)

end ConfFileMng

/-! Basic facts about the dictionary operations. -/

theorem dictUpdate_nil_right (d : Dict) : dictUpdate d [] = d := rfl

theorem dictUpdate_cons (d : Dict) (k : String) (v : JValue) (rest : Dict) :
    dictUpdate d ((k, v) :: rest) = dictUpdate (dictUpdate1 d k v) rest := rfl

theorem dictUpdate_singleton (d : Dict) (k : String) (v : JValue) :
    dictUpdate d [(k, v)] = dictUpdate1 d k v := rfl

theorem dictLookup_update1 (d : Dict) (k : String) (v : JValue) (k' : String) :
    dictLookup (dictUpdate1 d k v) k' = if k = k' then some v else dictLookup d k' := by
  induction d with
  | nil => simp [dictUpdate1, dictLookup]
  | cons p rest ih =>
      obtain ⟨a, b⟩ := p
      by_cases hak : a = k
      · subst hak
        by_cases hak' : a = k'
        · subst hak'; simp [dictUpdate1, dictLookup]
        · simp [dictUpdate1, dictLookup, hak']
      · by_cases hak' : a = k'
        · subst hak'
          have hkk' : ¬ k = a := fun h => hak h.symm
          simp [dictUpdate1, dictLookup, hak, hkk']
        · simp [dictUpdate1, dictLookup, hak, hak', ih]

theorem dictLookup_eq_none_of_not_mem (d : Dict) (k : String)
    (h : k ∉ dictKeys d) : dictLookup d k = none := by
  induction d with
  | nil => simp [dictLookup]
  | cons p rest ih =>
      obtain ⟨a, b⟩ := p
      simp only [dictKeys, List.map_cons, List.mem_cons] at h
      push_neg at h
      have hak : ¬ a = k := fun hh => h.1 hh.symm
      simp [dictLookup, hak]
      exact ih h.2

theorem dictUpdate1_of_not_mem (d : Dict) (k : String) (v : JValue)
    (h : k ∉ dictKeys d) : dictUpdate1 d k v = d ++ [(k, v)] := by
  induction d with
  | nil => simp [dictUpdate1]
  | cons p rest ih =>
      obtain ⟨a, b⟩ := p
      simp only [dictKeys, List.map_cons, List.mem_cons] at h
      push_neg at h
      have hak : ¬ a = k := fun hh => h.1 hh.symm
      simp [dictUpdate1, hak]
      exact ih h.2

theorem dictKeys_append (d d' : Dict) :
    dictKeys (d ++ d') = dictKeys d ++ dictKeys d' := by
  simp [dictKeys]

theorem dictUpdate_of_fresh (other : Dict) :
    ∀ d : Dict, (∀ k ∈ dictKeys other, k ∉ dictKeys d) →
    (dictKeys other).Nodup → dictUpdate d other = d ++ other := by
  induction other with
  | nil => intro d _ _; simp [dictUpdate]
  | cons p rest ih =>
      intro d hfresh hnodup
      obtain ⟨k, v⟩ := p
      simp only [dictKeys, List.map_cons, List.nodup_cons] at hnodup
      have hk : k ∉ dictKeys d := hfresh k (by simp [dictKeys])
      rw [dictUpdate_cons, dictUpdate1_of_not_mem d k v hk]
      rw [ih (d ++ [(k, v)]) ?fresh ?nodup]
      · simp
      case fresh =>
        intro k' hk'
        rw [dictKeys_append]
        simp only [List.mem_append]
        push_neg
        constructor
        · exact hfresh k' (by
            simp only [dictKeys, List.map_cons, List.mem_cons]
            right
            exact hk')
        · simp only [dictKeys, List.map_cons, List.map_nil, List.mem_singleton]
          intro hcon
          exact hnodup.1 (hcon ▸ hk')
      case nodup => exact hnodup.2

theorem dictUpdate_nil_left (M : Dict) (h : (dictKeys M).Nodup) :
    dictUpdate [] M = M := by
  have := dictUpdate_of_fresh M [] (fun k _ => by simp [dictKeys]) h
  simpa using this

theorem dictLookup_update (other : Dict) (hnodup : (dictKeys other).Nodup) :
    ∀ (d : Dict) (k : String),
      dictLookup (dictUpdate d other) k =
        match dictLookup other k with
        | some v => some v
        | none => dictLookup d k := by
  induction other with
  | nil => intro d k; simp [dictUpdate, dictLookup]
  | cons p rest ih =>
      intro d k
      obtain ⟨k0, v0⟩ := p
      simp only [dictKeys, List.map_cons, List.nodup_cons] at hnodup
      rw [dictUpdate_cons]
      rw [ih hnodup.2 (dictUpdate1 d k0 v0) k]
      by_cases hk : k0 = k
      · subst hk
        have : dictLookup rest k0 = none :=
          dictLookup_eq_none_of_not_mem rest k0 hnodup.1
        simp [dictLookup, this, dictLookup_update1]
      · simp [dictLookup, hk, dictLookup_update1]

open ConfFileMng

/-- C1: Round-trip — saving a store whose dictionary equals `M` succeeds
and produces the file `[M]`; loading that file into a freshly constructed
store with an empty dictionary yields an in-memory dictionary equal to
`M`.  (`M` is a Python dict, so its keys are distinct.) -/
theorem C1_round_trip (st1 : ConfFileMng) (M : Dict) (h1 : st1.confDict = some M)
    (hM : (dictKeys M).Nodup) (p : Option String) (nm : String) (dbg : Bool) :
    (ConfSave st1 true).2.2 = Outcome.ok ∧
    (ConfSave st1 true).2.1 = some (FileContent.json (JValue.arr [JValue.obj M])) ∧
    (ConfRead (ConfFileMng.init p none nm dbg)
        (FileContent.json (JValue.arr [JValue.obj M]))).1.confDict = some M ∧
    (ConfRead (ConfFileMng.init p none nm dbg)
        (FileContent.json (JValue.arr [JValue.obj M]))).2 = Outcome.ok := by
  refine ⟨?_, ?_, ?_, ?_⟩ <;>
    simp [ConfSave, ConfRead, ConfFileMng.init, savedJson, jsonIndex0, updateArg,
      pyTruthy, h1, dictUpdate_nil_left M hM]

/-- Witness for C1 at the example mapping from the self-test block. -/
theorem C1_round_trip_witness :
    ((ConfFileMng.init none (some [("id", JValue.str "test"), ("prm1", JValue.str "abcd")])
        "T" false).confDict = some [("id", JValue.str "test"), ("prm1", JValue.str "abcd")] ∧
      (dictKeys [("id", JValue.str "test"), ("prm1", JValue.str "abcd")]).Nodup) ∧
    ((ConfSave (ConfFileMng.init none
        (some [("id", JValue.str "test"), ("prm1", JValue.str "abcd")]) "T" false) true).2.2
        = Outcome.ok ∧
     (ConfSave (ConfFileMng.init none
        (some [("id", JValue.str "test"), ("prm1", JValue.str "abcd")]) "T" false) true).2.1
        = some (FileContent.json (JValue.arr
            [JValue.obj [("id", JValue.str "test"), ("prm1", JValue.str "abcd")]])) ∧
     (ConfRead (ConfFileMng.init none none "T2" false)
        (FileContent.json (JValue.arr
          [JValue.obj [("id", JValue.str "test"), ("prm1", JValue.str "abcd")]]))).1.confDict
        = some [("id", JValue.str "test"), ("prm1", JValue.str "abcd")] ∧
     (ConfRead (ConfFileMng.init none none "T2" false)
        (FileContent.json (JValue.arr
          [JValue.obj [("id", JValue.str "test"), ("prm1", JValue.str "abcd")]]))).2
        = Outcome.ok) :=
  ⟨⟨rfl, by decide⟩, C1_round_trip _ _ rfl (by decide) none "T2" false⟩

/-- C2: Load merges rather than replaces — reading a file parsing to
`[F]` into a store holding `D` succeeds and leaves `dictUpdate D F`:
keys only in `D` keep their old value, keys of `F` take the value from
`F`, fresh keys of `F` are added; in particular
`{a:1, b:2}` merged with `{b:3, c:4}` is `{a:1, b:3, c:4}`. -/
theorem C2_load_merge (st : ConfFileMng) (D F : Dict) (h : st.confDict = some D)
    (hF : (dictKeys F).Nodup) :
    (ConfRead st (FileContent.json (JValue.arr [JValue.obj F]))).1.confDict
        = some (dictUpdate D F) ∧
    (ConfRead st (FileContent.json (JValue.arr [JValue.obj F]))).2 = Outcome.ok ∧
    (∀ k : String,
      dictLookup (dictUpdate D F) k =
        match dictLookup F k with
        | some v => some v
        | none => dictLookup D k) ∧
    dictUpdate [("a", JValue.num 1), ("b", JValue.num 2)]
        [("b", JValue.num 3), ("c", JValue.num 4)] =
      [("a", JValue.num 1), ("b", JValue.num 3), ("c", JValue.num 4)] := by
  refine ⟨?_, ?_, fun k => dictLookup_update F hF D k, rfl⟩ <;>
    simp [ConfRead, jsonIndex0, updateArg, h]

/-- Witness for C2 at the mapping pair named in the claim. -/
theorem C2_load_merge_witness :
    ((ConfFileMng.init none (some [("a", JValue.num 1), ("b", JValue.num 2)])
        "W2" false).confDict = some [("a", JValue.num 1), ("b", JValue.num 2)] ∧
      (dictKeys [("b", JValue.num 3), ("c", JValue.num 4)]).Nodup) ∧
    ((ConfRead (ConfFileMng.init none (some [("a", JValue.num 1), ("b", JValue.num 2)]) "W2" false)
        (FileContent.json (JValue.arr
          [JValue.obj [("b", JValue.num 3), ("c", JValue.num 4)]]))).1.confDict
        = some (dictUpdate [("a", JValue.num 1), ("b", JValue.num 2)]
            [("b", JValue.num 3), ("c", JValue.num 4)]) ∧
     (ConfRead (ConfFileMng.init none (some [("a", JValue.num 1), ("b", JValue.num 2)]) "W2" false)
        (FileContent.json (JValue.arr
          [JValue.obj [("b", JValue.num 3), ("c", JValue.num 4)]]))).2 = Outcome.ok ∧
     (∀ k : String,
       dictLookup (dictUpdate [("a", JValue.num 1), ("b", JValue.num 2)]
           [("b", JValue.num 3), ("c", JValue.num 4)]) k =
         match dictLookup [("b", JValue.num 3), ("c", JValue.num 4)] k with
         | some v => some v
         | none => dictLookup [("a", JValue.num 1), ("b", JValue.num 2)] k) ∧
     dictUpdate [("a", JValue.num 1), ("b", JValue.num 2)]
         [("b", JValue.num 3), ("c", JValue.num 4)] =
       [("a", JValue.num 1), ("b", JValue.num 3), ("c", JValue.num 4)]) :=
  ⟨⟨rfl, by decide⟩, C2_load_merge _ _ _ rfl (by decide)⟩

/-- C3: Get after Set — on a store whose dictionary exists, `ConfSet`
with `save = False` returns normally (the in-memory mutation never
fails), and `ConfGet` of the same key on the resulting store returns
exactly the value just set. -/
theorem C3_get_after_set (st : ConfFileMng) (d : Dict) (h : st.confDict = some d)
    (k : String) (v : JValue) :
    (ConfSet st k v false true).2.2 = Outcome.ok ∧
    (ConfGet (ConfSet st k v false true).1 k).2.1 = some v ∧
    (ConfGet (ConfSet st k v false true).1 k).2.2 = Outcome.ok := by
  simp [ConfSet, ConfGet, h, dictUpdate_singleton, dictLookup_update1]

/-- Witness for C3 on a small concrete store. -/
theorem C3_get_after_set_witness :
    (ConfFileMng.init none none "W3" false).confDict = some [] ∧
    ((ConfSet (ConfFileMng.init none none "W3" false) "prm1" (JValue.str "ABCD")
        false true).2.2 = Outcome.ok ∧
     (ConfGet (ConfSet (ConfFileMng.init none none "W3" false) "prm1" (JValue.str "ABCD")
        false true).1 "prm1").2.1 = some (JValue.str "ABCD") ∧
     (ConfGet (ConfSet (ConfFileMng.init none none "W3" false) "prm1" (JValue.str "ABCD")
        false true).1 "prm1").2.2 = Outcome.ok) :=
  ⟨rfl, C3_get_after_set _ _ rfl "prm1" (JValue.str "ABCD")⟩

/-- C4: Missing file — when the configured path does not exist,
`ConfRead` records `RESULT_FILE_NOT_EXIST`, raises, and leaves the
in-memory dictionary exactly as it was. -/
theorem C4_missing_file (st : ConfFileMng) :
    (ConfRead st FileContent.missing).1.errorCode = RESULT_FILE_NOT_EXIST ∧
    (ConfRead st FileContent.missing).2 = Outcome.raised ∧
    (ConfRead st FileContent.missing).1.confDict = st.confDict := by
  simp [ConfRead]

/-- C5: Missing key — `ConfGet` of a key absent from the dictionary
records `RESULT_KEY_NOT_FOUND`, raises, returns no value, and changes
nothing else: dictionary, path, name and debug flag are untouched. -/
theorem C5_missing_key (st : ConfFileMng) (d : Dict) (k : String)
    (h : st.confDict = some d) (hk : dictLookup d k = none) :
    (ConfGet st k).1.errorCode = RESULT_KEY_NOT_FOUND ∧
    (ConfGet st k).2.2 = Outcome.raised ∧
    (ConfGet st k).2.1 = none ∧
    (ConfGet st k).1.confDict = st.confDict ∧
    (ConfGet st k).1.confFilePath = st.confFilePath ∧
    (ConfGet st k).1.name = st.name ∧
    (ConfGet st k).1.debug = st.debug := by
  simp [ConfGet, h, hk]

/-- Witness for C5: a key never set and not loaded. -/
theorem C5_missing_key_witness :
    ((ConfFileMng.init none (some [("a", JValue.num 1)]) "W5" false).confDict
        = some [("a", JValue.num 1)] ∧
      dictLookup [("a", JValue.num 1)] "b" = none) ∧
    ((ConfGet (ConfFileMng.init none (some [("a", JValue.num 1)]) "W5" false) "b").1.errorCode
        = RESULT_KEY_NOT_FOUND ∧
     (ConfGet (ConfFileMng.init none (some [("a", JValue.num 1)]) "W5" false) "b").2.2
        = Outcome.raised ∧
     (ConfGet (ConfFileMng.init none (some [("a", JValue.num 1)]) "W5" false) "b").2.1 = none ∧
     (ConfGet (ConfFileMng.init none (some [("a", JValue.num 1)]) "W5" false) "b").1.confDict
        = (ConfFileMng.init none (some [("a", JValue.num 1)]) "W5" false).confDict ∧
     (ConfGet (ConfFileMng.init none (some [("a", JValue.num 1)]) "W5" false) "b").1.confFilePath
        = (ConfFileMng.init none (some [("a", JValue.num 1)]) "W5" false).confFilePath ∧
     (ConfGet (ConfFileMng.init none (some [("a", JValue.num 1)]) "W5" false) "b").1.name
        = (ConfFileMng.init none (some [("a", JValue.num 1)]) "W5" false).name ∧
     (ConfGet (ConfFileMng.init none (some [("a", JValue.num 1)]) "W5" false) "b").1.debug
        = (ConfFileMng.init none (some [("a", JValue.num 1)]) "W5" false).debug) :=
  ⟨⟨rfl, rfl⟩, C5_missing_key _ _ _ rfl rfl⟩

/-- C6 counterexample: a parsed two-element top-level array (both
elements objects) does not make `ConfRead` fail with `RESULT_READ_ERROR`
— the call returns normally, so the claim is false at this input. -/
theorem C6_wrong_shape_counterexample :
    (ConfRead (ConfFileMng.init none (some [("a", JValue.num 1)]) "C6" false)
        (FileContent.json (JValue.arr
          [JValue.obj [("b", JValue.num 2)], JValue.obj [("c", JValue.num 3)]]))).1.errorCode
      ≠ RESULT_READ_ERROR ∧
    (ConfRead (ConfFileMng.init none (some [("a", JValue.num 1)]) "C6" false)
        (FileContent.json (JValue.arr
          [JValue.obj [("b", JValue.num 2)], JValue.obj [("c", JValue.num 3)]]))).2
      ≠ Outcome.raised := by
  constructor <;> decide

/-- C6 amended: `RESULT_READ_ERROR` is recorded exactly when opening or
parsing the file itself fails.  A top-level shape other than a
one-object array is NOT a ReadError: a bare object or an empty array
makes the unguarded `conf_read_json[0]` raise an uncaught exception with
the error code left at `RESULT_SUCCESS` and the dictionary untouched,
while a multi-element array whose first element is an object is no
failure at all — `ConfRead` returns normally and merges that first
element. -/
theorem C6_wrong_shape_amended (st : ConfFileMng) (d : Dict) (h : st.confDict = some d)
    (fields first : Dict) (rest : List JValue) :
    ((ConfRead st (FileContent.json (JValue.obj fields))).1.errorCode = RESULT_SUCCESS ∧
     (ConfRead st (FileContent.json (JValue.obj fields))).2 = Outcome.raised ∧
     (ConfRead st (FileContent.json (JValue.obj fields))).1.confDict = some d) ∧
    ((ConfRead st (FileContent.json (JValue.arr []))).1.errorCode = RESULT_SUCCESS ∧
     (ConfRead st (FileContent.json (JValue.arr []))).2 = Outcome.raised ∧
     (ConfRead st (FileContent.json (JValue.arr []))).1.confDict = some d) ∧
    ((ConfRead st (FileContent.json (JValue.arr (JValue.obj first :: rest)))).1.confDict
        = some (dictUpdate d first) ∧
     (ConfRead st (FileContent.json (JValue.arr (JValue.obj first :: rest)))).2 = Outcome.ok ∧
     (ConfRead st (FileContent.json (JValue.arr (JValue.obj first :: rest)))).1.errorCode
        = RESULT_SUCCESS) ∧
    ((ConfRead st FileContent.unreadable).1.errorCode = RESULT_READ_ERROR ∧
     (ConfRead st FileContent.unreadable).2 = Outcome.raised ∧
     (ConfRead st FileContent.unreadable).1.confDict = some d) := by
  refine ⟨?_, ?_, ?_, ?_⟩ <;>
    simp [ConfRead, jsonIndex0, updateArg, h]

/-- Witness for the amended C6 on concrete shapes. -/
theorem C6_wrong_shape_amended_witness :
    (ConfFileMng.init none (some [("a", JValue.num 1)]) "W6" false).confDict
        = some [("a", JValue.num 1)] ∧
    (((ConfRead (ConfFileMng.init none (some [("a", JValue.num 1)]) "W6" false)
        (FileContent.json (JValue.obj [("x", JValue.null)]))).1.errorCode = RESULT_SUCCESS ∧
      (ConfRead (ConfFileMng.init none (some [("a", JValue.num 1)]) "W6" false)
        (FileContent.json (JValue.obj [("x", JValue.null)]))).2 = Outcome.raised ∧
      (ConfRead (ConfFileMng.init none (some [("a", JValue.num 1)]) "W6" false)
        (FileContent.json (JValue.obj [("x", JValue.null)]))).1.confDict
        = some [("a", JValue.num 1)]) ∧
     ((ConfRead (ConfFileMng.init none (some [("a", JValue.num 1)]) "W6" false)
        (FileContent.json (JValue.arr []))).1.errorCode = RESULT_SUCCESS ∧
      (ConfRead (ConfFileMng.init none (some [("a", JValue.num 1)]) "W6" false)
        (FileContent.json (JValue.arr []))).2 = Outcome.raised ∧
      (ConfRead (ConfFileMng.init none (some [("a", JValue.num 1)]) "W6" false)
        (FileContent.json (JValue.arr []))).1.confDict = some [("a", JValue.num 1)]) ∧
     ((ConfRead (ConfFileMng.init none (some [("a", JValue.num 1)]) "W6" false)
        (FileContent.json (JValue.arr
          (JValue.obj [("b", JValue.num 2)] :: [JValue.obj []])))).1.confDict
        = some (dictUpdate [("a", JValue.num 1)] [("b", JValue.num 2)]) ∧
      (ConfRead (ConfFileMng.init none (some [("a", JValue.num 1)]) "W6" false)
        (FileContent.json (JValue.arr
          (JValue.obj [("b", JValue.num 2)] :: [JValue.obj []])))).2 = Outcome.ok ∧
      (ConfRead (ConfFileMng.init none (some [("a", JValue.num 1)]) "W6" false)
        (FileContent.json (JValue.arr
          (JValue.obj [("b", JValue.num 2)] :: [JValue.obj []])))).1.errorCode
        = RESULT_SUCCESS) ∧
     ((ConfRead (ConfFileMng.init none (some [("a", JValue.num 1)]) "W6" false)
        FileContent.unreadable).1.errorCode = RESULT_READ_ERROR ∧
      (ConfRead (ConfFileMng.init none (some [("a", JValue.num 1)]) "W6" false)
        FileContent.unreadable).2 = Outcome.raised ∧
      (ConfRead (ConfFileMng.init none (some [("a", JValue.num 1)]) "W6" false)
        FileContent.unreadable).1.confDict = some [("a", JValue.num 1)])) :=
  ⟨rfl, C6_wrong_shape_amended _ _ rfl [("x", JValue.null)] [("b", JValue.num 2)]
    [JValue.obj []]⟩

/-- C7: Reset — with a non-empty replacement mapping of distinct keys
(a Python dict), `ConfReset` with `save = False` returns normally and
leaves the dictionary equal to exactly a fresh copy of the mapping, all
prior keys gone; with an empty or absent mapping it is a no-op that
leaves the whole state unchanged. -/
theorem C7_reset (st : ConfFileMng) (d : Dict) (hd : d ≠ [])
    (hnd : (dictKeys d).Nodup) :
    (ConfReset st (some d) false true).1.confDict = some d ∧
    (ConfReset st (some d) false true).2.2 = Outcome.ok ∧
    (ConfReset st (some []) false true).1 = st ∧
    (ConfReset st (some []) false true).2.2 = Outcome.ok ∧
    (ConfReset st none false true).1 = st ∧
    (ConfReset st none false true).2.2 = Outcome.ok := by
  have hde : d.isEmpty = false := by
    cases d with
    | nil => exact absurd rfl hd
    | cons a t => rfl
  refine ⟨?_, ?_, rfl, rfl, rfl, rfl⟩ <;>
    simp [ConfReset, pyTruthy, hde, dictUpdate_nil_left d hnd]

/-- Witness for C7: `Reset({x:1})` after prior state `{a:1, b:2}`. -/
theorem C7_reset_witness :
    (([("x", JValue.num 1)] : Dict) ≠ [] ∧
      (dictKeys [("x", JValue.num 1)]).Nodup) ∧
    ((ConfReset (ConfFileMng.init none (some [("a", JValue.num 1), ("b", JValue.num 2)])
        "W7" false) (some [("x", JValue.num 1)]) false true).1.confDict
        = some [("x", JValue.num 1)] ∧
     (ConfReset (ConfFileMng.init none (some [("a", JValue.num 1), ("b", JValue.num 2)])
        "W7" false) (some [("x", JValue.num 1)]) false true).2.2 = Outcome.ok ∧
     (ConfReset (ConfFileMng.init none (some [("a", JValue.num 1), ("b", JValue.num 2)])
        "W7" false) (some []) false true).1
        = ConfFileMng.init none (some [("a", JValue.num 1), ("b", JValue.num 2)]) "W7" false ∧
     (ConfReset (ConfFileMng.init none (some [("a", JValue.num 1), ("b", JValue.num 2)])
        "W7" false) (some []) false true).2.2 = Outcome.ok ∧
     (ConfReset (ConfFileMng.init none (some [("a", JValue.num 1), ("b", JValue.num 2)])
        "W7" false) none false true).1
        = ConfFileMng.init none (some [("a", JValue.num 1), ("b", JValue.num 2)]) "W7" false ∧
     (ConfReset (ConfFileMng.init none (some [("a", JValue.num 1), ("b", JValue.num 2)])
        "W7" false) none false true).2.2 = Outcome.ok) :=
  ⟨⟨by simp, by decide⟩,
    C7_reset _ [("x", JValue.num 1)] (by simp) (by decide)⟩

/-- C8: Dictionary-never-null invariant — construction always yields a
store whose dictionary is a mapping, every operation preserves that, and
starting from an initialized dictionary no operation ever records
`RESULT_CONF_DICT_ERR`, so the DictionaryNotInitialized branches are
unreachable in correct usage. -/
theorem C8_dict_initialized (p : Option String) (u : Option Dict) (nm : String) (b : Bool)
    (st : ConfFileMng) (h : st.confDict.isSome) (f : FileContent) (w : Bool)
    (k : String) (v : JValue) (u2 : Option Dict) (s : Bool) :
    (ConfFileMng.init p u nm b).confDict.isSome ∧
    ((ConfRead st f).1.confDict.isSome ∧
      (ConfRead st f).1.errorCode ≠ RESULT_CONF_DICT_ERR) ∧
    ((ConfSave st w).1.confDict.isSome ∧
      (ConfSave st w).1.errorCode ≠ RESULT_CONF_DICT_ERR) ∧
    ((ConfSet st k v s w).1.confDict.isSome ∧
      (ConfSet st k v s w).1.errorCode ≠ RESULT_CONF_DICT_ERR) ∧
    ((ConfGet st k).1.confDict.isSome ∧
      (ConfGet st k).1.errorCode ≠ RESULT_CONF_DICT_ERR) ∧
    ((ConfReset st u2 s w).1.confDict.isSome ∧
      ((ConfReset st u2 s w).1.errorCode = st.errorCode ∨
        (ConfReset st u2 s w).1.errorCode ∈ [RESULT_SUCCESS, RESULT_WRITE_ERROR])) := by
  obtain ⟨d, hd⟩ := Option.isSome_iff_exists.mp h
  refine ⟨?_, ?_, ?_, ?_, ?_, ?_⟩
  · simp [ConfFileMng.init]
  · cases f with
    | missing =>
        simp [ConfRead, hd, RESULT_FILE_NOT_EXIST, RESULT_CONF_DICT_ERR]
    | unreadable =>
        simp [ConfRead, hd, RESULT_READ_ERROR, RESULT_CONF_DICT_ERR]
    | json v =>
        cases hj : jsonIndex0 v with
        | none =>
            simp [ConfRead, hj, hd, RESULT_SUCCESS, RESULT_CONF_DICT_ERR]
        | some elem =>
            cases ha : updateArg elem with
            | none =>
                simp [ConfRead, hj, ha, hd, RESULT_SUCCESS, RESULT_CONF_DICT_ERR]
            | some fields =>
                simp [ConfRead, hj, ha, hd, RESULT_SUCCESS, RESULT_CONF_DICT_ERR]
  · cases w <;>
      simp [ConfSave, hd, RESULT_SUCCESS, RESULT_WRITE_ERROR, RESULT_CONF_DICT_ERR]
  · cases s <;> cases w <;>
      simp [ConfSet, ConfSave, hd, RESULT_SUCCESS, RESULT_WRITE_ERROR, RESULT_CONF_DICT_ERR]
  · cases hk : dictLookup d k <;>
      simp [ConfGet, hd, hk, RESULT_SUCCESS, RESULT_KEY_NOT_FOUND, RESULT_CONF_DICT_ERR]
  · refine ⟨?_, ?_⟩
    · cases u2 with
      | none => simp [ConfReset, pyTruthy, h]
      | some d2 =>
          by_cases hde : d2.isEmpty
          · simp [ConfReset, pyTruthy, hde, h]
          · cases s <;> cases w <;> simp [ConfReset, ConfSave, pyTruthy, hde]
    · cases u2 with
      | none => left; rfl
      | some d2 =>
          by_cases hde : d2.isEmpty
          · left; simp [ConfReset, pyTruthy, hde]
          · cases s with
            | false =>
                left
                simp [ConfReset, pyTruthy, hde]
            | true =>
                right
                cases w <;> simp [ConfReset, ConfSave, pyTruthy, hde]

/-- Witness for C8 at a concrete store and arguments. -/
theorem C8_dict_initialized_witness :
    (ConfFileMng.init none none "N8" false).confDict.isSome ∧
    ((ConfFileMng.init none none "W8" false).confDict.isSome ∧
     ((ConfRead (ConfFileMng.init none none "N8" false) FileContent.missing).1.confDict.isSome ∧
       (ConfRead (ConfFileMng.init none none "N8" false)
         FileContent.missing).1.errorCode ≠ RESULT_CONF_DICT_ERR) ∧
     ((ConfSave (ConfFileMng.init none none "N8" false) false).1.confDict.isSome ∧
       (ConfSave (ConfFileMng.init none none "N8" false)
         false).1.errorCode ≠ RESULT_CONF_DICT_ERR) ∧
     ((ConfSet (ConfFileMng.init none none "N8" false) "k" JValue.null
         false false).1.confDict.isSome ∧
       (ConfSet (ConfFileMng.init none none "N8" false) "k" JValue.null
         false false).1.errorCode ≠ RESULT_CONF_DICT_ERR) ∧
     ((ConfGet (ConfFileMng.init none none "N8" false) "k").1.confDict.isSome ∧
       (ConfGet (ConfFileMng.init none none "N8" false)
         "k").1.errorCode ≠ RESULT_CONF_DICT_ERR) ∧
     ((ConfReset (ConfFileMng.init none none "N8" false) none false
         false).1.confDict.isSome ∧
       ((ConfReset (ConfFileMng.init none none "N8" false) none false
         false).1.errorCode = (ConfFileMng.init none none "N8" false).errorCode ∨
        (ConfReset (ConfFileMng.init none none "N8" false) none false
         false).1.errorCode ∈ [RESULT_SUCCESS, RESULT_WRITE_ERROR]))) :=
  ⟨rfl, C8_dict_initialized none none "W8" false
    (ConfFileMng.init none none "N8" false) rfl FileContent.missing false
    "k" JValue.null none false⟩

/-- C9: `ConfReset` (with `save = False`) never writes the last-error
code — afterwards the stored code and `GetErrorStr` output are exactly
what they were before the call — while `ConfRead`, `ConfSave`, `ConfSet`
and `ConfGet` overwrite the code with success on entry, so their entire
result is independent of the error code they start from. -/
theorem C9_reset_error_frame (st : ConfFileMng) (u : Option Dict) (w : Bool)
    (e : Nat) (f : FileContent) (k : String) (v : JValue) (s w2 : Bool) :
    (ConfReset st u false w).1.errorCode = st.errorCode ∧
    GetErrorStr (ConfReset st u false w).1 = GetErrorStr st ∧
    ConfRead { st with errorCode := e } f = ConfRead st f ∧
    ConfSave { st with errorCode := e } w2 = ConfSave st w2 ∧
    ConfSet { st with errorCode := e } k v s w2 = ConfSet st k v s w2 ∧
    ConfGet { st with errorCode := e } k = ConfGet st k := by
  refine ⟨?_, ?_, rfl, rfl, rfl, rfl⟩
  · cases u with
    | none => rfl
    | some d2 =>
        by_cases hde : d2.isEmpty <;> simp [ConfReset, pyTruthy, hde]
  · cases u with
    | none => rfl
    | some d2 =>
        by_cases hde : d2.isEmpty <;> simp [ConfReset, GetErrorStr, pyTruthy, hde]

/-- C10: Setting a key with `save = True` whose `ConfSave` fails raises
a write failure with `RESULT_WRITE_ERROR` recorded, yet the in-memory
dictionary still maps the key to the new value — the mutation precedes
the save and is not rolled back. -/
theorem C10_set_survives_failed_save (st : ConfFileMng) (d : Dict)
    (h : st.confDict = some d) (k : String) (v : JValue) :
    (ConfSet st k v true false).2.2 = Outcome.raised ∧
    (ConfSet st k v true false).1.errorCode = RESULT_WRITE_ERROR ∧
    (ConfSet st k v true false).1.confDict = some (dictUpdate1 d k v) ∧
    dictLookup (dictUpdate1 d k v) k = some v := by
  simp [ConfSet, ConfSave, h, dictUpdate_singleton, dictLookup_update1]

/-- Witness for C10 on a concrete store whose save fails. -/
theorem C10_set_survives_failed_save_witness :
    (ConfFileMng.init none (some [("a", JValue.num 1)]) "WX" false).confDict
        = some [("a", JValue.num 1)] ∧
    ((ConfSet (ConfFileMng.init none (some [("a", JValue.num 1)]) "WX" false)
        "k" (JValue.num 9) true false).2.2 = Outcome.raised ∧
     (ConfSet (ConfFileMng.init none (some [("a", JValue.num 1)]) "WX" false)
        "k" (JValue.num 9) true false).1.errorCode = RESULT_WRITE_ERROR ∧
     (ConfSet (ConfFileMng.init none (some [("a", JValue.num 1)]) "WX" false)
        "k" (JValue.num 9) true false).1.confDict
        = some (dictUpdate1 [("a", JValue.num 1)] "k" (JValue.num 9)) ∧
     dictLookup (dictUpdate1 [("a", JValue.num 1)] "k" (JValue.num 9)) "k"
        = some (JValue.num 9)) :=
  ⟨rfl, C10_set_survives_failed_save _ _ rfl "k" (JValue.num 9)⟩
